import Mathlib

/-!
Verification of the Mala-booking token-validation and authorization-gate
subsystem, as a shallow embedding of the Python sources:

* `src/app/cache.py`                      — `CacheService` (Redis-backed, no-op without Redis)
* `src/app/services/keycloak.py`          — `KeycloakService._get_jwks_cached`, `decode_token`
* `src/backend/app/dependencies.py`       — cookie gate, `validate_csrf`, claim→user
  mapping, `require_roles`
* `src/backend/app/middleware/rate_limiter.py` — `RateLimiterMiddleware.dispatch`
* `src/backend/app/routers/auth.py`       — `callback` (token exchange + logging)

Machine integers are modelled as `Int`/`Nat`; time is an explicit `Int`
parameter (epoch seconds); awaited I/O results (Redis round trips, HTTP
fetches) are explicit inputs; `HTTPException` is an error value carrying the
status code and detail string.
-/

deriving instance DecidableEq for Except

namespace Mala

/-- Python truthiness for an optional string: `None` and the empty string are
falsy, every other string is truthy (models `if not x:` in the source). -/
def pyTruthy (s : Option String) : Bool :=
  match s with
  | none => false
  | some str => !str.isEmpty

/-! ## Data model: `schemas.Claims` and `schemas.User` -/

/-- `schemas.Claims` as populated by `KeycloakService.decode_token`
(src/app/services/keycloak.py lines 264-276). -/
structure Claims where
  id : String
  email : String
  name : String
  preferred_username : String
  given_name : String
  family_name : String
  roles : List String
  exp : Int
  iat : Int
  iss : String
  aud : String
deriving Repr, DecidableEq

/-- `schemas.User` as populated by the dependency functions
(src/backend/app/dependencies.py lines 44-52). -/
structure User where
  user_id : String
  keycloak_id : String
  email : String
  username : String
  first_name : String
  last_name : String
  role : String
deriving Repr, DecidableEq

/-! ## CacheService (src/app/cache.py)

`CacheService.get` returns `None` unless a Redis client is connected and the
key holds an unexpired value; `CacheService.set` stores with `SETEX key ttl`
(the entry is gone once `ttl` seconds have elapsed) and is a no-op returning
`False` when no Redis client is connected.  The store is modelled as an
association list of entries with absolute expiry times. -/

structure CacheEntry (α : Type) where
  key : String
  value : α
  expiresAt : Int
deriving Repr, DecidableEq

abbrev CacheStore (α : Type) := List (CacheEntry α)

/-- `CacheService.get` (src/app/cache.py lines 56-68).  The stored values in
this development (claims dicts, JWKS dicts) are non-empty, so the `if value:`
truthiness test in the source is equivalent to presence. -/
def cacheGet (redisAvailable : Bool) (store : CacheStore α) (now : Int)
    (key : String) : Option α :=
  if redisAvailable then
    match store.find? (fun e => e.key == key) with
    | some e => if now < e.expiresAt then some e.value else none
    | none => none
  else none

/-- `CacheService.set` (src/app/cache.py lines 70-82): `SETEX` semantics,
no-op when Redis is unavailable. -/
def cacheSet (redisAvailable : Bool) (store : CacheStore α) (now : Int)
    (key : String) (value : α) (ttl : Int) : CacheStore α :=
  if redisAvailable then
    { key := key, value := value, expiresAt := now + ttl } ::
      store.filter (fun e => e.key != key)
  else store

/-! ## Claims cache keying (src/app/services/keycloak.py lines 217-221)

The source computes `token_hash = str(hash(token))[-8:]` and
`cache_key = f"token:{token_hash}"`.  Python's built-in `hash` on strings is a
process-seeded function returning a 64-bit signed machine integer
(`Py_hash_t`); it is modelled as an arbitrary function `pyhash : String → Int`
(bounded to the 64-bit range where a claim needs that fact). -/

/-- Python string slicing `s[-8:]`: the last `n` characters of `s`
(`s` itself when it is shorter than `n`). -/
def lastChars (n : Nat) (s : String) : String :=
  s.drop (s.length - n)

/-- `str(hash(token))[-8:]` with `pyhash` modelling Python's built-in
`hash`. -/
def pyHashFingerprint (pyhash : String → Int) (token : String) : String :=
  lastChars 8 (toString (pyhash token))

/-- The claims-cache key `f"token:{token_hash}"`. -/
def claimsCacheKey (pyhash : String → Int) (token : String) : String :=
  "token:" ++ pyHashFingerprint pyhash token

/-! ## `KeycloakService.decode_token` (src/app/services/keycloak.py 213-304)

The body: compute the fingerprint key; on a cache hit return the cached
claims (reconstructed via `schemas.Claims(**cached_claims)` — a faithful
round trip for these field types, modelled as returning the stored `Claims`
value); on a miss run the JWKS lookup + `jwt.decode` + claim mapping (lines
226-276, abstracted as the `verify` oracle, with `Nat` the HTTP status of the
raised `HTTPException` on failure) and on success store the claims with the
fixed `ttl=300` (line 279).  `verifications` counts invocations of the
cryptographic verification path. -/

structure DecodeState where
  claimsCache : CacheStore Claims
  redisAvailable : Bool
  now : Int
  verifications : Nat
deriving Repr, DecidableEq

structure DecodeEnv where
  pyhash : String → Int
  verify : String → Except Nat Claims

def decode_token (env : DecodeEnv) (st : DecodeState) (token : String) :
    Except Nat Claims × DecodeState :=
  let key := claimsCacheKey env.pyhash token
  match cacheGet st.redisAvailable st.claimsCache st.now key with
  | some claims => (Except.ok claims, st)
  | none =>
    match env.verify token with
    | Except.error e =>
        (Except.error e, { st with verifications := st.verifications + 1 })
    | Except.ok claims =>
        (Except.ok claims,
         { st with
             claimsCache :=
               cacheSet st.redisAvailable st.claimsCache st.now key claims 300
             verifications := st.verifications + 1 })

/-! ## JWKS fetching: `KeycloakService._get_jwks_cached`
(src/app/services/keycloak.py lines 179-211)

Flow: try the shared (Redis) cache under key `f"jwks:{realm}"`; on a hit
return it.  On a miss attempt the HTTP fetch (outcome an explicit input); on
success store it in the shared cache with `ttl=3600` and return it.  On
`httpx.HTTPError`, fall back to the in-memory class attributes
`_jwks_cache` / `_jwks_cache_time`, but only when both are set and the entry
is younger than `_jwks_cache_ttl = 3600`; otherwise raise HTTP 503.  Note
that no statement in the class ever assigns `_jwks_cache` or
`_jwks_cache_time` after their class-level `None` initialisers (lines
30-34), which the embedding reflects by never updating those fields. -/

structure Jwk where
  kid : String
  kty : String
  keyUse : String
  modulus : String
  exponent : String
deriving Repr, DecidableEq

abbrev Jwks := List Jwk

def jwksCacheTtl : Int := 3600

def jwksRedisKey (realm : String) : String := "jwks:" ++ realm

structure JwksState where
  redis : CacheStore Jwks
  redisAvailable : Bool
  memCache : Option Jwks
  memCacheTime : Option Int
  now : Int
deriving Repr, DecidableEq

structure JwksResult where
  result : Except Nat Jwks
  state : JwksState
  fetched : Bool
deriving Repr, DecidableEq

def get_jwks_cached (realm : String) (st : JwksState)
    (fetchOutcome : Except Unit Jwks) : JwksResult :=
  match cacheGet st.redisAvailable st.redis st.now (jwksRedisKey realm) with
  | some jwks => { result := Except.ok jwks, state := st, fetched := false }
  | none =>
    match fetchOutcome with
    | Except.ok jwks =>
        { result := Except.ok jwks
          state :=
            { st with
                redis :=
                  cacheSet st.redisAvailable st.redis st.now
                    (jwksRedisKey realm) jwks 3600 }
          fetched := true }
    | Except.error _ =>
        match st.memCache, st.memCacheTime with
        | some mc, some mt =>
          if st.now - mt < jwksCacheTtl then
            { result := Except.ok mc, state := st, fetched := true }
          else
            { result := Except.error 503, state := st, fetched := true }
        | _, _ => { result := Except.error 503, state := st, fetched := true }

/-! ## Role extraction and claim construction
(src/app/services/keycloak.py lines 261-276)

`roles = payload.get('realm_access', {}).get('roles', [])`. -/

structure RealmAccess where
  roles : Option (List String)
deriving Repr, DecidableEq

structure TokenPayload where
  sub : String
  email : Option String
  name : Option String
  preferred_username : Option String
  given_name : Option String
  family_name : Option String
  realm_access : Option RealmAccess
  exp : Int
  iat : Int
  iss : String
  aud : String
deriving Repr, DecidableEq

def extract_roles (p : TokenPayload) : List String :=
  match p.realm_access with
  | none => []
  | some ra => ra.roles.getD []

def claims_from_payload (p : TokenPayload) : Claims :=
  { id := p.sub
    email := p.email.getD ""
    name := p.name.getD ""
    preferred_username := p.preferred_username.getD ""
    given_name := p.given_name.getD ""
    family_name := p.family_name.getD ""
    roles := extract_roles p
    exp := p.exp
    iat := p.iat
    iss := p.iss
    aud := p.aud }

/-! ## Dependency functions (src/backend/app/dependencies.py) -/

/-- The claims→user mapping shared by `decode_token`,
`get_current_user_from_keycloak` and `get_current_user_from_cookies`
(src/backend/app/dependencies.py lines 44-52):
`role=claims.roles[0] if claims.roles else "User"`. -/
def user_from_claims (c : Claims) : User :=
  { user_id := c.id
    keycloak_id := c.id
    email := c.email
    username := c.preferred_username
    first_name := c.given_name
    last_name := c.family_name
    role :=
      match c.roles with
      | [] => "User"
      | r :: _ => r }

/-- Outcome of the credential/CSRF prelude of the cookie gate: either an
`HTTPException` or control proceeding to `keycloak_service.decode_token`
with the extracted access token. -/
inductive CookieGateResult where
  | fail (statusCode : Nat) (detail : String)
  | proceed (token : String)
deriving Repr, DecidableEq

/-- The credential-extraction and CSRF portion of
`get_current_user_from_cookies` (src/backend/app/dependencies.py lines
169-193): `if not access_token:` raises 401; then
`if csrf_token != csrf_cookie:` raises 403; otherwise the request proceeds
to token decoding. -/
def get_current_user_from_cookies
    (access_token csrf_token csrf_cookie : Option String) : CookieGateResult :=
  if !pyTruthy access_token then
    CookieGateResult.fail 401 "Access token missing"
  else if csrf_token ≠ csrf_cookie then
    CookieGateResult.fail 403 "Invalid CSRF token"
  else
    CookieGateResult.proceed (access_token.getD "")

/-- `validate_csrf` (src/backend/app/dependencies.py lines 218-232):
`if not csrf_token or not csrf_cookie:` raises 403 "CSRF token missing";
`if csrf_token != csrf_cookie:` raises 403 "Invalid CSRF token"; otherwise
returns `True`. -/
def validate_csrf (csrf_token csrf_cookie : Option String) :
    Except (Nat × String) Bool :=
  if !pyTruthy csrf_token || !pyTruthy csrf_cookie then
    Except.error (403, "CSRF token missing")
  else if csrf_token ≠ csrf_cookie then
    Except.error (403, "Invalid CSRF token")
  else
    Except.ok true

/-- `require_roles` role checker (src/backend/app/dependencies.py lines
261-269): `if current_user.role not in required_roles:` raises 403. -/
def require_roles (required_roles : List String) (current_user : User) :
    Except (Nat × String) User :=
  if current_user.role ∉ required_roles then
    Except.error (403, "Insufficient permissions")
  else
    Except.ok current_user

/-! ## Rate limiter (src/backend/app/middleware/rate_limiter.py)

`dispatch` reads `self.clients[client_ip]` (a `defaultdict(list)`, so a
missing address reads as the empty list), pops entries from the front while
`request_times[0] < current_time - window_seconds` (the pops mutate the
stored list, so pruning persists even on rejection), raises HTTP 429 when
`len(request_times) >= max_requests`, and otherwise appends the current
time and forwards the request. -/

/-- The `while request_times and request_times[0] < cutoff: pop(0)` loop. -/
def pruneFront (cutoff : Int) : List Int → List Int
  | [] => []
  | t :: rest => if t < cutoff then pruneFront cutoff rest else t :: rest

structure RateLimiterState where
  clients : List (String × List Int)
deriving Repr, DecidableEq

/-- `self.clients[client_ip]` under `defaultdict(list)` semantics. -/
def clientTimes (st : RateLimiterState) (ip : String) : List Int :=
  ((st.clients.find? (fun p => p.1 == ip)).map Prod.snd).getD []

def setClientTimes (st : RateLimiterState) (ip : String) (ts : List Int) :
    RateLimiterState :=
  { clients := (ip, ts) :: st.clients.filter (fun p => p.1 != ip) }

/-- `RateLimiterMiddleware.dispatch` (src/backend/app/middleware/rate_limiter.py
lines 15-31), returning the admission decision and the updated per-address
state. -/
def rateLimiterDispatch (maxRequests : Nat) (windowSeconds : Int)
    (st : RateLimiterState) (ip : String) (now : Int) :
    Except (Nat × String) Unit × RateLimiterState :=
  let pruned := pruneFront (now - windowSeconds) (clientTimes st ip)
  if maxRequests ≤ pruned.length then
    (Except.error (429, "Too many requests. Please try again later."),
     setClientTimes st ip pruned)
  else
    (Except.ok (), setClientTimes st ip (pruned ++ [now]))

/-- Run a sequence of requests from one address through the dispatcher,
collecting each admission decision. -/
def rateLimiterRun (maxRequests : Nat) (windowSeconds : Int)
    (st : RateLimiterState) (ip : String) :
    List Int → RateLimiterState × List (Except (Nat × String) Unit)
  | [] => (st, [])
  | t :: ts =>
    let step := rateLimiterDispatch maxRequests windowSeconds st ip t
    let rest := rateLimiterRun maxRequests windowSeconds step.2 ip ts
    (rest.1, step.1 :: rest.2)

/-! ## `/auth/callback` (src/backend/app/routers/auth.py lines 347-401)

The handler: 400 when no `code` query parameter; exchange the code at the
provider token endpoint (outcome an explicit input; an `httpx.HTTPError` is
logged and mapped to 400); a non-200 success status is logged and mapped to
400; a missing `access_token` field is 400; otherwise the handler logs
`f"Token exchange successful: {access_token}"` and redirects to
`f"{state}?token={access_token}"` (with `state` defaulting to "/").  The
second component of the result collects the log lines the handler emits. -/

structure TokenResponse where
  statusCode : Nat
  access_token : Option String
deriving Repr, DecidableEq

inductive CallbackResult where
  | httpError (statusCode : Nat) (detail : String)
  | redirect (url : String)
deriving Repr, DecidableEq

def callback (code : Option String) (stateParam : Option String)
    (exchangeOutcome : Except String TokenResponse) :
    CallbackResult × List String :=
  if !pyTruthy code then
    (CallbackResult.httpError 400 "Authorization code not provided", [])
  else
    match exchangeOutcome with
    | Except.error e =>
        (CallbackResult.httpError 400 ("Failed to exchange code for token: " ++ e),
         ["Token exchange failed: " ++ e])
    | Except.ok resp =>
        if resp.statusCode ≠ 200 then
          (CallbackResult.httpError 400 "Failed to exchange code for token",
           ["Token exchange failed"])
        else
          match resp.access_token with
          | none =>
              (CallbackResult.httpError 400 "Access token not found in response", [])
          | some tok =>
              if tok.isEmpty then
                (CallbackResult.httpError 400 "Access token not found in response", [])
              else
                (CallbackResult.redirect ((stateParam.getD "/") ++ "?token=" ++ tok),
                 ["Token exchange successful: " ++ tok])

/-! ## Interleaving model for concurrent `_get_jwks_cached` callers

`_get_jwks_cached` holds no lock and uses no in-flight future: each caller
awaits `cache.get` (a suspension point), and on a miss awaits the HTTP fetch
and then `cache.set`.  A caller is therefore the three-step program
read-cache / fetch / write-cache, where a read that hits skips straight to
completion.  A schedule lists which caller performs its next step; the
`fetches` counter counts outbound key-fetch calls. -/

inductive FetchPhase where
  | start
  | willFetch
  | willWrite
  | finished
deriving Repr, DecidableEq

structure ConcState where
  cache : Option Jwks
  pcs : List FetchPhase
  fetches : Nat
deriving Repr, DecidableEq

def concStep (k : Jwks) (s : ConcState) (i : Nat) : ConcState :=
  match s.pcs.get? i with
  | none => s
  | some FetchPhase.start =>
    match s.cache with
    | some _ => { s with pcs := s.pcs.set i FetchPhase.finished }
    | none => { s with pcs := s.pcs.set i FetchPhase.willFetch }
  | some FetchPhase.willFetch =>
      { s with pcs := s.pcs.set i FetchPhase.willWrite
               fetches := s.fetches + 1 }
  | some FetchPhase.willWrite =>
      { s with cache := some k, pcs := s.pcs.set i FetchPhase.finished }
  | some FetchPhase.finished => s

def concRun (k : Jwks) (s : ConcState) (sched : List Nat) : ConcState :=
  sched.foldl (concStep k) s

def concInit (n : Nat) : ConcState :=
  { cache := none, pcs := List.replicate n FetchPhase.start, fetches := 0 }

/-- The schedule in which all `n` callers observe the empty cache before any
of them completes: every caller reads, then every caller fetches, then every
caller writes. -/
def simultaneousMissSched (n : Nat) : List Nat :=
  List.range n ++ List.range n ++ List.range n

/-! ## Concrete sample values used by the witness and counterexample
theorems -/

/-- Claims of a vendor token whose `exp` is 10 epoch seconds. -/
def sampleClaims10 : Claims :=
  { id := "u1"
    email := "v@example.com"
    name := "Vendor K"
    preferred_username := "vendor1"
    given_name := "V"
    family_name := "K"
    roles := ["vendor"]
    exp := 10
    iat := 0
    iss := "https://idp/realms/mala"
    aud := "account" }

/-- The same claims with the role list empty (a token carrying no role
claim). -/
def noRoleClaims : Claims := { sampleClaims10 with roles := [] }

/-- Claims for a different subject, used to exhibit wrong-subject cache
hits. -/
def otherClaims : Claims :=
  { sampleClaims10 with id := "u2", preferred_username := "other" }

/-- An identity with the single role "vendor". -/
def vendorUser : User :=
  { user_id := "u1"
    keycloak_id := "u1"
    email := "v@example.com"
    username := "vendor1"
    first_name := "V"
    last_name := "K"
    role := "vendor" }

/-- A verified token payload carrying no `realm_access` claim. -/
def payloadNoRealm : TokenPayload :=
  { sub := "u1"
    email := none
    name := none
    preferred_username := none
    given_name := none
    family_name := none
    realm_access := none
    exp := 10
    iat := 0
    iss := "https://idp/realms/mala"
    aud := "account" }

/-- Environment in which every token verifies to `sampleClaims10`, with a
fixed hash value. -/
def sampleEnv : DecodeEnv :=
  { pyhash := fun _ => 12345678
    verify := fun _ => Except.ok sampleClaims10 }

/-- Environment whose hash collides on all tokens and whose verifier gives
`sampleClaims10` for "tokA" and `otherClaims` for anything else. -/
def collideEnv : DecodeEnv :=
  { pyhash := fun _ => 0
    verify := fun t =>
      if t = "tokA" then Except.ok sampleClaims10 else Except.ok otherClaims }

/-- Empty claims cache, Redis available, time 0. -/
def emptyRedisState : DecodeState :=
  { claimsCache := [], redisAvailable := true, now := 0, verifications := 0 }

/-- Empty claims cache with Redis unavailable (the `CacheService`
fallback-less degraded mode). -/
def noRedisState : DecodeState :=
  { claimsCache := [], redisAvailable := false, now := 0, verifications := 0 }

/-- A one-key JWKS. -/
def kSample : Jwks :=
  [{ kid := "kid1", kty := "RSA", keyUse := "sig", modulus := "mod1",
     exponent := "exp1" }]

/-- Fresh JWKS cache state: nothing cached yet, Redis available, time 0. -/
def jwksSt0 : JwksState :=
  { redis := [], redisAvailable := true, memCache := none,
    memCacheTime := none, now := 0 }

/-- JWKS state holding an unexpired shared-cache entry at time 100. -/
def jwksStHit : JwksState :=
  { redis := [{ key := "jwks:mala", value := kSample, expiresAt := 3600 }],
    redisAvailable := true, memCache := none, memCacheTime := none,
    now := 100 }

/-- JWKS state whose shared-cache entry has expired (time 4000 past the
3600-second expiry), in-memory fallback never populated. -/
def jwksStStale : JwksState :=
  { redis := [{ key := "jwks:mala", value := kSample, expiresAt := 3600 }],
    redisAvailable := true, memCache := none, memCacheTime := none,
    now := 4000 }

/-- A claims-cache state holding the entry the first `decode_token` call on
"tokA" under `sampleEnv` writes, observed at time 11. -/
def hitState : DecodeState :=
  { claimsCache :=
      [{ key := claimsCacheKey sampleEnv.pyhash "tokA",
         value := sampleClaims10, expiresAt := 300 }],
    redisAvailable := true, now := 11, verifications := 1 }

/-- A successful token-endpoint response carrying the access token
"tok123". -/
def exchOk : TokenResponse := { statusCode := 200, access_token := some "tok123" }

/-! ## Theorems -/

/-- Helper: a `decode_token` call whose cache lookup hits returns the cached
claims and leaves the state unchanged. -/
theorem decode_token_cache_hit (env : DecodeEnv) (st : DecodeState)
    (tok : String) (c : Claims)
    (hhit : cacheGet st.redisAvailable st.claimsCache st.now
      (claimsCacheKey env.pyhash tok) = some c) :
    decode_token env st tok = (Except.ok c, st) := by
  simp [decode_token, hhit]

/-- Helper: a `decode_token` call that misses the cache (Redis available)
and verifies successfully returns the fresh claims and stores them with the
fixed TTL 300. -/
theorem decode_token_miss_ok (env : DecodeEnv) (st : DecodeState)
    (tok : String) (c : Claims)
    (hredis : st.redisAvailable = true)
    (hmiss : cacheGet st.redisAvailable st.claimsCache st.now
      (claimsCacheKey env.pyhash tok) = none)
    (hok : env.verify tok = Except.ok c) :
    decode_token env st tok =
      (Except.ok c,
       { st with
           claimsCache :=
             { key := claimsCacheKey env.pyhash tok, value := c,
               expiresAt := st.now + 300 } ::
               st.claimsCache.filter
                 (fun e => e.key != claimsCacheKey env.pyhash tok)
           verifications := st.verifications + 1 }) := by
  rw [hredis] at hmiss
  simp [decode_token, hmiss, hok, cacheSet, hredis]

/-- Helper: a `decode_token` call on a state whose cache holds the matching
entry at the front, unexpired at the current time, is a cache hit. -/
theorem decode_token_hit_head (env : DecodeEnv) (st2 : DecodeState)
    (tok : String) (c : Claims) (rest : CacheStore Claims) (expiry : Int)
    (hredis : st2.redisAvailable = true)
    (hcc : st2.claimsCache =
      { key := claimsCacheKey env.pyhash tok, value := c,
        expiresAt := expiry } :: rest)
    (ht : st2.now < expiry) :
    decode_token env st2 tok = (Except.ok c, st2) := by
  apply decode_token_cache_hit
  rw [hredis, hcc]
  simp [cacheGet, List.find?, ht]

/-- C1 (counterexample): a request through the cookie gate whose header
CSRF token and cookie CSRF token are both absent proceeds past the CSRF
check to token decoding instead of failing with 403 — `None != None` is
false in the source, so the gate only rejects on inequality, not on
absence. -/
theorem C1_counterexample :
    get_current_user_from_cookies (some "tok") none none =
      CookieGateResult.proceed "tok"
    ∧ get_current_user_from_cookies (some "tok") none none ≠
      CookieGateResult.fail 403 "Invalid CSRF token"
    ∧ get_current_user_from_cookies (some "tok") none none ≠
      CookieGateResult.fail 403 "CSRF token missing" := by
  decide

/-- C1 (amended): `validate_csrf` does satisfy the claim — it succeeds
exactly when both CSRF values are present (truthy) and equal, and every
failure is a 403; but the cookie gate `get_current_user_from_cookies`
enforces only equality of the two CSRF values: with a present access token
it proceeds exactly when header and cookie CSRF values are equal, which
includes the case where both are absent. -/
theorem C1_amended :
    (∀ h c, validate_csrf h c = Except.ok true ↔
        pyTruthy h = true ∧ pyTruthy c = true ∧ h = c)
    ∧ (∀ h c, validate_csrf h c = Except.ok true
        ∨ validate_csrf h c = Except.error (403, "CSRF token missing")
        ∨ validate_csrf h c = Except.error (403, "Invalid CSRF token"))
    ∧ (∀ (tok : String) h c, tok.isEmpty = false →
        (get_current_user_from_cookies (some tok) h c =
            CookieGateResult.proceed tok ↔ h = c)) := by
  refine ⟨?_, ?_, ?_⟩
  · intro h c
    by_cases hh : pyTruthy h = true
    · by_cases hc : pyTruthy c = true
      · by_cases heq : h = c
        · simp [validate_csrf, hh, hc, heq]
        · simp [validate_csrf, hh, hc, heq]
      · simp [validate_csrf, hh, hc]
    · simp [validate_csrf, hh]
  · intro h c
    unfold validate_csrf
    split
    · simp
    · split
      · simp
      · simp
  · intro tok h c htok
    have hp : pyTruthy (some tok) = true := by simp [pyTruthy, htok]
    by_cases heq : h = c
    · simp [get_current_user_from_cookies, hp, heq]
    · simp [get_current_user_from_cookies, hp, heq]

/-- C1 (witness): the amended theorem applied at concrete inputs — equal
present CSRF values pass `validate_csrf`, and the cookie gate with equal
CSRF values proceeds. -/
theorem C1_amended_witness :
    validate_csrf (some "x") (some "x") = Except.ok true
    ∧ get_current_user_from_cookies (some "tok") (some "a") (some "a") =
      CookieGateResult.proceed "tok" :=
  ⟨(C1_amended.1 (some "x") (some "x")).mpr (by decide),
   (C1_amended.2.2 "tok" (some "a") (some "a") (by decide)).mpr rfl⟩

/-- C3 (counterexample): an endpoint declaring the empty required-role list
is not authenticated-only — `require_roles []` rejects the vendor identity
with 403, because `role not in []` is always true in the source. -/
theorem C3_counterexample :
    require_roles [] vendorUser = Except.error (403, "Insufficient permissions")
    ∧ require_roles [] vendorUser ≠ Except.ok vendorUser := by
  decide

/-- C3 (amended): `require_roles` authorizes exactly when the identity's
role is a member of the required list and otherwise fails with 403 (never
401); in particular the vendor identity on a \x7b"admin","superuser"\x7d
endpoint is Forbidden — but an empty required-role list Forbids every
identity rather than admitting every authenticated one. -/
theorem C3_amended :
    (∀ rs u, require_roles rs u = Except.ok u ↔ u.role ∈ rs)
    ∧ (∀ rs u, u.role ∉ rs →
        require_roles rs u = Except.error (403, "Insufficient permissions"))
    ∧ require_roles ["admin", "superuser"] vendorUser =
        Except.error (403, "Insufficient permissions")
    ∧ (∀ u, require_roles [] u =
        Except.error (403, "Insufficient permissions")) := by
  refine ⟨?_, ?_, by decide, ?_⟩
  · intro rs u
    by_cases hm : u.role ∈ rs
    · simp [require_roles, hm]
    · simp [require_roles, hm]
  · intro rs u hm
    simp [require_roles, hm]
  · intro u
    simp [require_roles]

/-- C3 (witness): the amended theorem applied at concrete inputs — the
vendor identity passes a check requiring "vendor" and fails one requiring
"admin". -/
theorem C3_amended_witness :
    require_roles ["vendor"] vendorUser = Except.ok vendorUser
    ∧ require_roles ["admin"] vendorUser =
      Except.error (403, "Insufficient permissions") :=
  ⟨(C3_amended.1 ["vendor"] vendorUser).mpr (by decide),
   C3_amended.2.1 ["admin"] vendorUser (by decide)⟩

/-- C4 (counterexample): a token that verifies with an empty role list does
not yield an identity with no privileges — the mapping substitutes the
default role "User", and that identity passes a role check requiring the
specific role "User". -/
theorem C4_counterexample :
    (user_from_claims noRoleClaims).role = "User"
    ∧ (user_from_claims noRoleClaims).role ≠ ""
    ∧ require_roles ["User"] (user_from_claims noRoleClaims) =
      Except.ok (user_from_claims noRoleClaims) := by
  decide

/-- C4 (amended): role extraction from the verified payload does default to
the empty list when the `realm_access` claim or its `roles` field is absent;
but the claims-to-identity mapping replaces an empty role list with the
default role "User", so such an identity fails every role check whose
required list omits "User" yet passes any check requiring "User". -/
theorem C4_amended :
    (∀ p : TokenPayload, p.realm_access = none → extract_roles p = [])
    ∧ (∀ (p : TokenPayload) (ra : RealmAccess), p.realm_access = some ra →
        ra.roles = none → extract_roles p = [])
    ∧ (∀ c : Claims, c.roles = [] → (user_from_claims c).role = "User")
    ∧ (∀ (c : Claims) (rs : List String), c.roles = [] → "User" ∉ rs →
        require_roles rs (user_from_claims c) =
          Except.error (403, "Insufficient permissions")) := by
  refine ⟨?_, ?_, ?_, ?_⟩
  · intro p hp
    simp [extract_roles, hp]
  · intro p ra hp hr
    simp [extract_roles, hp, hr]
  · intro c hc
    simp [user_from_claims, hc]
  · intro c rs hc hn
    have hrole : (user_from_claims c).role = "User" := by
      simp [user_from_claims, hc]
    simp [require_roles, hrole, hn]

/-- C4 (witness): the amended theorem applied at concrete inputs — the
payload with no realm-access claim extracts no roles, and the resulting
no-role identity is Forbidden on an "admin" endpoint. -/
theorem C4_amended_witness :
    extract_roles payloadNoRealm = []
    ∧ (user_from_claims noRoleClaims).role = "User"
    ∧ require_roles ["admin"] (user_from_claims noRoleClaims) =
      Except.error (403, "Insufficient permissions") :=
  ⟨C4_amended.1 payloadNoRealm rfl,
   C4_amended.2.2.1 noRoleClaims rfl,
   C4_amended.2.2.2 noRoleClaims ["admin"] rfl (by decide)⟩

/-- C10: evaluation of the `/auth/callback` success path at the failing
input — a valid authorization code exchanged for HTTP 200 with access token
"tok123" makes the handler write the raw access token verbatim into the log
output, contradicting the requirement that raw token values are never
logged. -/
theorem C10_token_logged :
    (callback (some "abc") none (Except.ok exchOk)).2 =
      ["Token exchange successful: " ++ "tok123"]
    ∧ (callback (some "abc") none (Except.ok exchOk)).1 =
      CallbackResult.redirect ("/?token=" ++ "tok123") := by
  decide

/-- C2 (counterexample): for a token expiring 10 seconds after insertion
time, `decode_token` stores the claims with the fixed TTL 300 — not
`min 300 10 = 10` — and a cache hit at time 11, one second past the token's
expiry, still returns the VerifiedClaims. -/
theorem C2_counterexample :
    (decode_token sampleEnv emptyRedisState "tokA").2.claimsCache.map
        CacheEntry.expiresAt = [300]
    ∧ min (300 : Int) (sampleClaims10.exp - emptyRedisState.now) = 10
    ∧ (300 : Int) ≠ 10
    ∧ (decode_token sampleEnv
        { (decode_token sampleEnv emptyRedisState "tokA").2 with
            now := 11 } "tokA").1 = Except.ok sampleClaims10
    ∧ sampleClaims10.exp < (11 : Int) := by
  decide

/-- C2 (amended): on a miss followed by successful verification the cache
entry's TTL is the fixed constant 300 seconds — the entry expires at
insertion time + 300 regardless of the token's own `exp` — and a cache hit
returns the cached claims without any expiry re-check, so claims can be
served past the underlying token's expiry (by up to 300 seconds). -/
theorem C2_amended :
    (∀ (env : DecodeEnv) (st : DecodeState) (tok : String) (c : Claims),
        st.redisAvailable = true →
        cacheGet st.redisAvailable st.claimsCache st.now
          (claimsCacheKey env.pyhash tok) = none →
        env.verify tok = Except.ok c →
        (decode_token env st tok).2.claimsCache.head? =
          some { key := claimsCacheKey env.pyhash tok, value := c,
                 expiresAt := st.now + 300 })
    ∧ (∀ (env : DecodeEnv) (st : DecodeState) (tok : String) (c : Claims),
        cacheGet st.redisAvailable st.claimsCache st.now
          (claimsCacheKey env.pyhash tok) = some c →
        (decode_token env st tok).1 = Except.ok c) := by
  constructor
  · intro env st tok c hredis hmiss hok
    rw [decode_token_miss_ok env st tok c hredis hmiss hok]
    rfl
  · intro env st tok c hhit
    rw [decode_token_cache_hit env st tok c hhit]

/-- C2 (witness): the amended theorem applied at concrete inputs — the
first call on "tokA" stores an entry expiring at time 0 + 300, and a hit
state at time 11 serves the claims of the token that expired at time 10. -/
theorem C2_amended_witness :
    (decode_token sampleEnv emptyRedisState "tokA").2.claimsCache.head? =
      some { key := claimsCacheKey sampleEnv.pyhash "tokA",
             value := sampleClaims10,
             expiresAt := emptyRedisState.now + 300 }
    ∧ (decode_token sampleEnv hitState "tokA").1 = Except.ok sampleClaims10 :=
  ⟨C2_amended.1 sampleEnv emptyRedisState "tokA" sampleClaims10 rfl rfl rfl,
   C2_amended.2 sampleEnv hitState "tokA" sampleClaims10 (by decide)⟩

/-- C5 (counterexample): after one successful key fetch (cached in the
shared cache at time 0 with TTL 3600), a lookup at time 4000 with the
key-fetch endpoint unreachable fails with the 503 `KeyFetchError` path even
though a key set had been fetched and cached in the current process — the
expired shared entry is not served and the in-memory fallback was never
populated. -/
theorem C5_counterexample :
    (get_jwks_cached "mala" jwksSt0 (Except.ok kSample)).result =
      Except.ok kSample
    ∧ (get_jwks_cached "mala"
        { (get_jwks_cached "mala" jwksSt0 (Except.ok kSample)).state with
            now := 4000 } (Except.error ())).result = Except.error 503 := by
  decide

/-- C5 (amended): lookups keep returning the previously fetched key set
only while the shared cache entry is unexpired (then no fetch is issued at
all); the in-memory fallback serves its copy only when it is populated and
younger than 3600 seconds — and no code path ever populates it
(`_jwks_cache` and `_jwks_cache_time` are left unchanged by every call), so
starting from their initial `None` the 503 path is reached whenever the
shared cache misses and the fetch fails, is reached even with a stale
in-memory copy, and is not prevented by earlier successful fetches. -/
theorem C5_amended :
    (∀ (realm : String) (st : JwksState) (f : Except Unit Jwks) (jwks : Jwks),
        cacheGet st.redisAvailable st.redis st.now (jwksRedisKey realm) =
          some jwks →
        (get_jwks_cached realm st f).result = Except.ok jwks
        ∧ (get_jwks_cached realm st f).fetched = false)
    ∧ (∀ (realm : String) (st : JwksState) (f : Except Unit Jwks),
        (get_jwks_cached realm st f).state.memCache = st.memCache
        ∧ (get_jwks_cached realm st f).state.memCacheTime = st.memCacheTime)
    ∧ (∀ (realm : String) (st : JwksState),
        st.memCache = none →
        cacheGet st.redisAvailable st.redis st.now (jwksRedisKey realm) =
          none →
        (get_jwks_cached realm st (Except.error ())).result =
          Except.error 503)
    ∧ (∀ (realm : String) (st : JwksState) (mc : Jwks) (mt : Int),
        st.memCache = some mc → st.memCacheTime = some mt →
        jwksCacheTtl ≤ st.now - mt →
        cacheGet st.redisAvailable st.redis st.now (jwksRedisKey realm) =
          none →
        (get_jwks_cached realm st (Except.error ())).result =
          Except.error 503) := by
  refine ⟨?_, ?_, ?_, ?_⟩
  · intro realm st f jwks hhit
    simp [get_jwks_cached, hhit]
  · intro realm st f
    cases hcg : cacheGet st.redisAvailable st.redis st.now (jwksRedisKey realm) with
    | some jwks => simp [get_jwks_cached, hcg]
    | none =>
      cases f with
      | ok jwks => simp [get_jwks_cached, hcg]
      | error e =>
        cases hmc : st.memCache with
        | none =>
          cases hmt : st.memCacheTime with
          | none => simp [get_jwks_cached, hcg, hmc, hmt]
          | some mt => simp [get_jwks_cached, hcg, hmc, hmt]
        | some mc =>
          cases hmt : st.memCacheTime with
          | none => simp [get_jwks_cached, hcg, hmc, hmt]
          | some mt =>
            by_cases hlt : st.now - mt < jwksCacheTtl
            · simp [get_jwks_cached, hcg, hmc, hmt, hlt]
            · simp [get_jwks_cached, hcg, hmc, hmt, hlt]
  · intro realm st hmc hmiss
    simp [get_jwks_cached, hmiss, hmc]
  · intro realm st mc mt hmc hmt hle hmiss
    simp [get_jwks_cached, hmiss, hmc, hmt, not_lt.mpr hle]

/-- C5 (witness): the amended theorem applied at concrete states — an
unexpired shared entry is served without fetching, and the state with an
expired shared entry and unpopulated in-memory fallback fails 503 on an
unreachable endpoint. -/
theorem C5_amended_witness :
    (get_jwks_cached "mala" jwksStHit (Except.error ())).result =
      Except.ok kSample
    ∧ (get_jwks_cached "mala" jwksStHit (Except.error ())).fetched = false
    ∧ (get_jwks_cached "mala" jwksStStale (Except.error ())).result =
      Except.error 503 :=
  ⟨(C5_amended.1 "mala" jwksStHit (Except.error ()) kSample (by decide)).1,
   (C5_amended.1 "mala" jwksStHit (Except.error ()) kSample (by decide)).2,
   C5_amended.2.2.1 "mala" jwksStStale rfl (by decide)⟩

/-- C7 (counterexample): when the cache backend is unavailable
(`CacheService` holds no Redis client, its `get` always returns `None` and
its `set` stores nothing), calling `decode_token` twice in rapid succession
with the same raw token performs two cryptographic verifications, not at
most one — though both calls do return identical claims. -/
theorem C7_counterexample :
    (decode_token sampleEnv
        ((decode_token sampleEnv noRedisState "tokA").2) "tokA").2.verifications = 2
    ∧ ¬ ((2 : Nat) ≤ 1)
    ∧ (decode_token sampleEnv noRedisState "tokA").1 = Except.ok sampleClaims10
    ∧ (decode_token sampleEnv
        ((decode_token sampleEnv noRedisState "tokA").2) "tokA").1 =
      Except.ok sampleClaims10 := by
  decide

/-- C7 (amended): when the Redis cache backend is available, a first
`decode_token` call that misses the cache and verifies successfully,
followed by a second call with the same raw token within 300 seconds,
returns bit-identical claims on both calls and performs exactly one
cryptographic verification across the two — the second call is served from
the claims cache. -/
theorem C7_amended (env : DecodeEnv) (st : DecodeState) (tok : String)
    (t2 : Int) (c : Claims)
    (hredis : st.redisAvailable = true)
    (hmiss : cacheGet st.redisAvailable st.claimsCache st.now
      (claimsCacheKey env.pyhash tok) = none)
    (hok : env.verify tok = Except.ok c)
    (ht : t2 < st.now + 300) :
    (decode_token env st tok).1 = Except.ok c
    ∧ (decode_token env
        { (decode_token env st tok).2 with now := t2 } tok).1 = Except.ok c
    ∧ (decode_token env
        { (decode_token env st tok).2 with now := t2 } tok).2.verifications =
      st.verifications + 1 := by
  have hfirst := decode_token_miss_ok env st tok c hredis hmiss hok
  have h2 : decode_token env
      { (decode_token env st tok).2 with now := t2 } tok =
      (Except.ok c, { (decode_token env st tok).2 with now := t2 }) := by
    apply decode_token_hit_head env _ tok c
      (st.claimsCache.filter (fun e => e.key != claimsCacheKey env.pyhash tok))
      (st.now + 300)
    · rw [hfirst]
      exact hredis
    · rw [hfirst]
    · rw [hfirst]
      exact ht
  refine ⟨?_, ?_, ?_⟩
  · rw [hfirst]
  · rw [h2]
  · rw [h2, hfirst]

/-- C7 (witness): the amended theorem applied at concrete inputs —
two calls on "tokA" five seconds apart with Redis available return the
same claims with one verification in total. -/
theorem C7_amended_witness :
    (decode_token sampleEnv emptyRedisState "tokA").1 =
      Except.ok sampleClaims10
    ∧ (decode_token sampleEnv
        { (decode_token sampleEnv emptyRedisState "tokA").2 with
            now := 5 } "tokA").1 = Except.ok sampleClaims10
    ∧ (decode_token sampleEnv
        { (decode_token sampleEnv emptyRedisState "tokA").2 with
            now := 5 } "tokA").2.verifications =
      emptyRedisState.verifications + 1 :=
  C7_amended sampleEnv emptyRedisState "tokA" 5 sampleClaims10 rfl rfl rfl
    (by decide)

/-- Helper: after storing a timestamp list for an address, reading that
address back yields exactly that list. -/
theorem clientTimes_set (st : RateLimiterState) (ip : String) (ts : List Int) :
    clientTimes (setClientTimes st ip ts) ip = ts := by
  simp [clientTimes, setClientTimes, List.find?]

/-- Helper: on a chronologically ordered timestamp list, the front-pruning
loop removes exactly the timestamps older than the cutoff. -/
theorem pruneFront_sorted_filter (cutoff : Int) (ts : List Int)
    (hs : ts.Sorted (· ≤ ·)) :
    pruneFront cutoff ts = ts.filter (fun x => decide (cutoff ≤ x)) := by
  induction ts with
  | nil => rfl
  | cons t rest ih =>
    rw [List.sorted_cons] at hs
    by_cases hlt : t < cutoff
    · simp [pruneFront, hlt, List.filter_cons,
        decide_eq_false (not_le.mpr hlt), ih hs.2]
    · have hle : cutoff ≤ t := not_lt.mp hlt
      have hall : ∀ x ∈ t :: rest, decide (cutoff ≤ x) = true := by
        intro x hx
        rcases List.mem_cons.mp hx with h1 | h2
        · exact decide_eq_true (h1 ▸ hle)
        · exact decide_eq_true (le_trans hle (hs.1 x h2))
      rw [show pruneFront cutoff (t :: rest) = t :: rest from by
        simp [pruneFront, hlt]]
      exact (List.filter_eq_self.mpr hall).symm

/-- C9: the rate limiter is a pure per-address sliding window — a request
is admitted exactly when, after pruning, fewer than `max_requests`
timestamps remain; every rejection carries status 429; a rejected request's
timestamp is not recorded (only the pruning persists) while an accepted
one's is appended; pruning on a chronological list removes exactly the
timestamps older than `now - window_seconds`; and in the concrete scenario
with `max_requests = 3`, `window_seconds = 60`, requests at times 0, 10, 20
are accepted, the fourth at time 30 is rejected with 429, and a request at
time 100 (past the window) is accepted again. -/
theorem C9_rate_limiter :
    (∀ (maxR : Nat) (w : Int) (st : RateLimiterState) (ip : String) (now : Int),
        (rateLimiterDispatch maxR w st ip now).1 = Except.ok () ↔
          (pruneFront (now - w) (clientTimes st ip)).length < maxR)
    ∧ (∀ (maxR : Nat) (w : Int) (st : RateLimiterState) (ip : String)
        (now : Int) (e : Nat × String),
        (rateLimiterDispatch maxR w st ip now).1 = Except.error e →
        e = (429, "Too many requests. Please try again later."))
    ∧ (∀ (maxR : Nat) (w : Int) (st : RateLimiterState) (ip : String)
        (now : Int),
        maxR ≤ (pruneFront (now - w) (clientTimes st ip)).length →
        clientTimes (rateLimiterDispatch maxR w st ip now).2 ip =
          pruneFront (now - w) (clientTimes st ip))
    ∧ (∀ (maxR : Nat) (w : Int) (st : RateLimiterState) (ip : String)
        (now : Int),
        (pruneFront (now - w) (clientTimes st ip)).length < maxR →
        clientTimes (rateLimiterDispatch maxR w st ip now).2 ip =
          pruneFront (now - w) (clientTimes st ip) ++ [now])
    ∧ (∀ (cutoff : Int) (ts : List Int), ts.Sorted (· ≤ ·) →
        pruneFront cutoff ts = ts.filter (fun x => decide (cutoff ≤ x)))
    ∧ (rateLimiterRun 3 60 { clients := [] } "1.2.3.4"
        [0, 10, 20, 30, 100]).2 =
        [Except.ok (), Except.ok (), Except.ok (),
         Except.error (429, "Too many requests. Please try again later."),
         Except.ok ()] := by
  refine ⟨?_, ?_, ?_, ?_, pruneFront_sorted_filter, by decide⟩
  · intro maxR w st ip now
    by_cases hc : maxR ≤ (pruneFront (now - w) (clientTimes st ip)).length
    · simp [rateLimiterDispatch, hc]
    · simp [rateLimiterDispatch, hc]
      omega
  · intro maxR w st ip now e he
    by_cases hc : maxR ≤ (pruneFront (now - w) (clientTimes st ip)).length
    · simp [rateLimiterDispatch, hc] at he
      exact he.symm
    · simp [rateLimiterDispatch, hc] at he
  · intro maxR w st ip now hc
    simp [rateLimiterDispatch, hc, clientTimes_set]
  · intro maxR w st ip now hc
    simp [rateLimiterDispatch, not_le.mpr hc, clientTimes_set]

/-- C9 (witness): the theorem applied at concrete inputs — a first request
from a fresh address is admitted, and pruning a chronological list at
cutoff 40 keeps exactly the timestamp 50. -/
theorem C9_rate_limiter_witness :
    (rateLimiterDispatch 3 60 { clients := [] } "9.9.9.9" 0).1 = Except.ok ()
    ∧ pruneFront 40 [0, 10, 20, 50] = [50] :=
  ⟨(C9_rate_limiter.1 3 60 { clients := [] } "9.9.9.9" 0).mpr (by decide),
   by
     rw [C9_rate_limiter.2.2.2.2.1 40 [0, 10, 20, 50] (by decide)]
     decide⟩

set_option maxRecDepth 20000 in
/-- C6 (counterexample): fifty concurrent callers that all miss the empty
key-set cache before any of them completes issue fifty outbound key-fetch
calls under the code's lock-free read/fetch/write structure — not exactly
one. -/
theorem C6_counterexample :
    (concRun kSample (concInit 50) (simultaneousMissSched 50)).fetches = 50
    ∧ (50 : Nat) ≠ 1 :=
  ⟨rfl, by decide⟩

set_option maxRecDepth 20000 in
/-- C6 (amended): `_get_jwks_cached` has no single-flight guard — each
caller that observes a cache miss issues its own fetch.  A lone caller
fetches once, two callers that both read before either writes fetch twice,
and fifty such callers fetch fifty times. -/
theorem C6_amended :
    (∀ k : Jwks, (concRun k (concInit 1) (simultaneousMissSched 1)).fetches = 1)
    ∧ (∀ k : Jwks, (concRun k (concInit 2) [0, 1, 0, 1, 0, 1]).fetches = 2)
    ∧ (concRun kSample (concInit 50) (simultaneousMissSched 50)).fetches = 50 :=
  ⟨fun _ => rfl, fun _ => rfl, rfl⟩

/-- Helper: pigeonhole on the token fingerprint — any 64-bit-valued model
of Python's string hash maps two distinct raw tokens to the same claims
cache key, since there are infinitely many token strings but finitely many
64-bit hash values. -/
theorem pyhash_key_collision (h : String → Int)
    (hbound : ∀ t : String, -(2 ^ 63) ≤ h t ∧ h t < 2 ^ 63) :
    ∃ t1 t2 : String, t1 ≠ t2 ∧ claimsCacheKey h t1 = claimsCacheKey h t2 := by
  have hfin : (Set.Icc (-(2 ^ 63) : Int) (2 ^ 63)).Finite := Set.finite_Icc _ _
  haveI hFin : Finite (Set.Icc (-(2 ^ 63) : Int) (2 ^ 63)) := hfin.to_subtype
  obtain ⟨t1, t2, hne, heq⟩ :=
    Finite.exists_ne_map_eq_of_infinite
      (fun t : String =>
        (⟨h t, Set.mem_Icc.mpr ⟨(hbound t).1, le_of_lt (hbound t).2⟩⟩ :
          Set.Icc (-(2 ^ 63) : Int) (2 ^ 63)))
  refine ⟨t1, t2, hne, ?_⟩
  have hv : h t1 = h t2 := congrArg Subtype.val heq
  unfold claimsCacheKey pyHashFingerprint
  rw [hv]

/-- C8 (counterexample): no 64-bit-valued hash makes the cache-key
fingerprint injective on raw token strings — the claimed injectivity fails
for every model of Python's built-in string hash. -/
theorem C8_counterexample :
    ¬ ∃ h : String → Int,
        (∀ t : String, -(2 ^ 63) ≤ h t ∧ h t < 2 ^ 63)
        ∧ (∀ t1 t2 : String, t1 ≠ t2 →
            claimsCacheKey h t1 ≠ claimsCacheKey h t2) := by
  rintro ⟨h, hbound, hinj⟩
  obtain ⟨t1, t2, hne, heq⟩ := pyhash_key_collision h hbound
  exact hinj t1 t2 hne heq

/-- C8 (amended): the fingerprint is NOT injective — for every
64-bit-valued hash two distinct raw tokens share a cache key — and under
such a collision a cache hit in `decode_token` returns the VerifiedClaims
produced for a different token: with a colliding hash, decoding "tokB"
right after "tokA" returns the claims of the subject of "tokA" although
"tokB" verifies to a different subject's claims. -/
theorem C8_amended :
    (∀ h : String → Int,
        (∀ t : String, -(2 ^ 63) ≤ h t ∧ h t < 2 ^ 63) →
        ∃ t1 t2 : String, t1 ≠ t2 ∧
          claimsCacheKey h t1 = claimsCacheKey h t2)
    ∧ (decode_token collideEnv
        ((decode_token collideEnv emptyRedisState "tokA").2) "tokB").1 =
      Except.ok sampleClaims10
    ∧ collideEnv.verify "tokB" = Except.ok otherClaims
    ∧ sampleClaims10 ≠ otherClaims :=
  ⟨fun h hb => pyhash_key_collision h hb, by decide, by decide, by decide⟩

/-- C8 (witness): the amended theorem applied at a concrete hash model —
there exist two distinct tokens sharing a cache key. -/
theorem C8_amended_witness :
    ∃ t1 t2 : String, t1 ≠ t2 ∧
      claimsCacheKey (fun _ => 0) t1 = claimsCacheKey (fun _ => 0) t2 :=
  C8_amended.1 (fun _ => 0) (fun _ => ⟨by norm_num, by norm_num⟩)

end Mala
